import Mathlib

/-!
Shallow embedding of the task-execution engine of `src/main.py` (pyengine).

The source is a Python "checks runner".  Machine-level details that no claim
depends on (terminal colours, argparse, the filesystem walk) are abstracted
into explicit parameters; every function below is translated from the source
function of the same name, keeping the source's control flow, truthiness
tests, message ordering and error behaviour.  Python exceptions are modelled
with `Except PyErr`; printing is modelled as an explicit event trace.
-/

namespace PyEngine

/-- Python exceptions that the modelled code can raise or catch. -/
inductive PyErr where
  /-- `KeyError(token)` raised by `str.format` on a missing key. -/
  | keyError (k : String)
  /-- `IndexError` raised by `str.format` for auto/positional fields when no
  positional arguments are supplied. -/
  | indexError (msg : String)
  /-- `ValueError` raised by `str.format` on malformed brace syntax. -/
  | valueError (msg : String)
  /-- `TypeError`, e.g. calling a function with a missing required argument. -/
  | typeError (msg : String)
  /-- Transport-level fault of the HTTP client (`requests` exceptions). -/
  | requestFault (msg : String)
  /-- Format-string features (conversions `!r`, format specs `:...`,
  attribute/index access) that none of the modelled templates use; the model
  conservatively maps them to an error of their own so they are never
  silently conflated with the supported fragment. -/
  | unsupportedField (f : String)
  deriving Repr, DecidableEq

/-- One reported line: the source's `debug`/`info`/`warning`/`error` printers,
a bare `print`, plus `shellInv`, which records a `subprocess.Popen` launch
(the current directory and the command string handed to the shell). -/
inductive Ev where
  | debugMsg (s : String)
  | infoMsg (s : String)
  | warnMsg (s : String)
  | errorMsg (s : String)
  | plain (s : String)
  | shellInv (cwd : String) (cmd : String)
  deriving Repr, DecidableEq

instance {ε α : Type} [DecidableEq ε] [DecidableEq α] : DecidableEq (Except ε α) := by
  intro a b
  cases a <;> cases b <;> first
    | (apply isFalse; intro h; exact Except.noConfusion h)
    | (rename_i x y
       exact if h : x = y then isTrue (by rw [h]) else
         isFalse (by intro hc; cases hc; exact h rfl))

/-- A settings mapping (Python dict of string keys to string values). -/
abbrev Settings := List (String × String)

/-- The character class of `INPUTS_REGEX = \x7b(?P<input>[a-zA-Z0-9_\-]+)\x7d`. -/
def isTokenChar (c : Char) : Bool :=
  c.isAlpha || c.isDigit || c = '_' || c = '-'

/-- Literal open brace, used to build template strings. -/
def obr : String := "\x7b"

/-- Literal close brace. -/
def cbr : String := "\x7d"

/-- The string `\x7bt\x7d`: the token `t` wrapped in braces. -/
def braced (t : String) : String := obr ++ t ++ cbr

/-- Resolution of one completed replacement field of `str.format`, with the
CPython rules for the fragment the program uses: an empty field or an
all-digit field is positional (no positional arguments are ever supplied, so
it raises `IndexError`); a field made of `INPUTS_REGEX` token characters is a
keyword lookup raising `KeyError` when absent; anything else (conversions,
format specs, attribute access) is outside the modelled fragment. -/
def fieldResult (conf : Settings) (fld : List Char) : Except PyErr (List Char) :=
  if fld.isEmpty then
    .error (.indexError "Replacement index 0 out of range")
  else if fld.all Char.isDigit then
    .error (.indexError "Replacement index out of range")
  else if fld.all isTokenChar then
    match List.lookup (String.mk fld) conf with
    | some v => .ok v.data
    | none => .error (.keyError (String.mk fld))
  else .error (.unsupportedField (String.mk fld))

/-- The scanner of Python `str.format`: literal mode (`none`) copies
characters, doubling `\x7b\x7b`/`\x7d\x7d` collapses to a single brace, a lone
close brace is a `ValueError`; field mode (`some acc`) collects the field up
to the closing brace and resolves it with `fieldResult`.  Values are inserted
verbatim (format is non-recursive). -/
def pyFormatGo (conf : Settings) : Option (List Char) → List Char → Except PyErr (List Char)
  | none, [] => .ok []
  | none, [c] =>
    if c = '{' then .error (.valueError "Single brace encountered in format string")
    else if c = '}' then .error (.valueError "Single brace encountered in format string")
    else .ok [c]
  | none, c :: c2 :: r =>
    if c = '{' then
      if c2 = '{' then ('{' :: ·) <$> pyFormatGo conf none r
      else pyFormatGo conf (some []) (c2 :: r)
    else if c = '}' then
      if c2 = '}' then ('}' :: ·) <$> pyFormatGo conf none r
      else .error (.valueError "Single brace encountered in format string")
    else (c :: ·) <$> pyFormatGo conf none (c2 :: r)
  | some _, [] => .error (.valueError "Single brace encountered in format string")
  | some acc, c :: r =>
    if c = '}' then do
      let v ← fieldResult conf acc
      let t ← pyFormatGo conf none r
      .ok (v ++ t)
    else pyFormatGo conf (some (acc ++ [c])) r

/-- `sub_conf(s, conf)` — `return s.format(**conf)` (main.py:268). -/
def sub_conf (s : String) (conf : Settings) : Except PyErr String :=
  (pyFormatGo conf none s.data).map String.mk

/-- Scanner equivalent to `re.findall(INPUTS_REGEX, text)`: from a `\x7b`,
collect a maximal nonempty run of token characters closed by `\x7d`
(token characters exclude both braces, so maximal munch coincides with the
regex's backtracking search, and a failed attempt resumes at the next open
brace, which is the first position after the failed one where a new match
can start). -/
def findTokensGo : Option (List Char) → List Char → List String
  | _, [] => []
  | none, c :: r =>
    if c = '{' then findTokensGo (some []) r else findTokensGo none r
  | some acc, c :: r =>
    if c = '}' then
      if acc.isEmpty then findTokensGo none r
      else String.mk acc :: findTokensGo none r
    else if c = '{' then findTokensGo (some []) r
    else if isTokenChar c then findTokensGo (some (acc ++ [c])) r
    else findTokensGo none r

/-- All `INPUTS_REGEX` matches of a text, in order, duplicates kept
(the source adds them to a set; membership in this list is set membership). -/
def findTokens (text : List Char) : List String :=
  findTokensGo none text

/-- Python's whitespace class for `str.strip` (ASCII fragment). -/
def isPyWs (c : Char) : Bool :=
  c = ' ' || c = '\t' || c = '\n' || c = '\r' || c = '\x0b' || c = '\x0c'

/-- Python `s.strip()`: removes leading and trailing whitespace. -/
def pyStrip (s : String) : String :=
  String.mk (((s.data.dropWhile isPyWs).reverse.dropWhile isPyWs).reverse)

/-- Modelled from the spec: the spec's words "trailing whitespace stripped"
(§4.5), i.e. a right-only strip, kept separate so it can be compared with the
source's `strip()` which also removes leading whitespace. -/
def pyRstrip (s : String) : String :=
  String.mk ((s.data.reverse.dropWhile isPyWs).reverse)

/-- A Python value that is either a string or a list of strings, the shape
`task_cmd`'s `cmds` and `task_notes`'s `notes` accept per their docstrings. -/
inductive StrOrList where
  | str (s : String)
  | list (l : List String)
  deriving Repr, DecidableEq

/-- Python truthiness of a string or list (`if cmds:`, `if notes:`). -/
def StrOrList.truthy : StrOrList → Bool
  | .str s => !s.isEmpty
  | .list l => !l.isEmpty

/-- The `isinstance(x, str)` coercion `x = [x]` used by both executors. -/
def StrOrList.toList : StrOrList → List String
  | .str s => [s]
  | .list l => l

/-- Reading a string-typed field; the modelled fragment only ever stores
strings in string-valued fields (`cmd_dir`), so a list there reads as `""`. -/
def StrOrList.asStr : StrOrList → String
  | .str s => s
  | .list _ => ""

/-- The process environment seen by `task_cmd`: the current working
directory, the set of existing directories (`os.path.isdir`), and the shell
as an oracle from (current directory, command string) to either a launch or
runtime fault or the subprocess's (return code, decoded combined
stdout+stderr). -/
structure Sys where
  cwd : String
  dirs : List String
  shell : String → String → Except String (Int × String)

/-- Result of `task_cmd`, with the event trace and the final process-wide
current directory made explicit. -/
structure CmdOutcome where
  success : Bool
  output : String
  finalCwd : String
  trace : List Ev
  deriving Repr, DecidableEq

/-- The `Popen` invocations recorded in a trace. -/
def invocationsOf (t : List Ev) : List (String × String) :=
  t.filterMap (fun ev => match ev with
    | .shellInv cwd c => some (cwd, c)
    | _ => none)

/-- Loop state of `task_cmd`'s `for c in cmds` loop. -/
structure LoopSt where
  was : Bool
  out : String
  trace : List Ev
  deriving Repr, DecidableEq

/-- One iteration of `task_cmd`'s loop (main.py:158-166): a debug line, then
`Popen(sub_conf(cmd_to_exec, conf), shell=True, ...)` — substitution of the
joined string, the launch, `communicate`, decode and `strip()`; any exception
is caught and reported with the current line `c`.  Note the body runs the
joined string `cmdToExec`, not the loop variable `c`. -/
def cmdIter (sys : Sys) (curDir : String) (conf : Settings) (cmdToExec : String)
    (st : LoopSt) (c : String) : LoopSt :=
  let st := { st with trace := st.trace ++ [Ev.debugMsg ("Executing command: " ++ cmdToExec ++ "...")] }
  match sub_conf cmdToExec conf with
  | .error _e =>
    { st with trace := st.trace ++ [Ev.errorMsg ("Error executing command: " ++ c)] }
  | .ok subbed =>
    match sys.shell curDir subbed with
    | .error _f =>
      { st with trace := st.trace ++ [Ev.shellInv curDir subbed,
                                      .errorMsg ("Error executing command: " ++ c)] }
    | .ok (_code, raw) =>
      { was := true, out := pyStrip raw,
        trace := st.trace ++ [Ev.shellInv curDir subbed] }

/-- `task_cmd(cmds, conf, cmd_dir='')` (main.py:129-175).  Truthiness test on
`cmds`; working-directory setup with `os.getcwd`/`os.chdir` guarded by
`os.path.isdir`; string coercion to a list; `cmd_to_exec = "; ".join(cmds)`;
the per-line loop; restoration `os.chdir(cwd)` when `cmd_dir` was given;
else-branch error `No cmds provided`. -/
def task_cmd (sys : Sys) (cmds : StrOrList) (conf : Settings)
    (cmd_dir : String := "") : CmdOutcome :=
  if cmds.truthy then
    let cwd := sys.cwd
    let dirExists := sys.dirs.contains cmd_dir
    let dirMsgs : List Ev :=
      if cmd_dir = "" then []
      else if dirExists then []
      else [.errorMsg ("Cmd directory: " ++ cmd_dir ++ " does not exist")]
    let curDir := if cmd_dir = "" then cwd else if dirExists then cmd_dir else cwd
    let cmdList := cmds.toList
    let cmdToExec := String.intercalate "; " cmdList
    let st := cmdList.foldl (cmdIter sys curDir conf cmdToExec)
      { was := false, out := "", trace := dirMsgs }
    let finalCwd := if cmd_dir = "" then curDir else cwd
    { success := st.was, output := st.out, finalCwd := finalCwd, trace := st.trace }
  else
    { success := false, output := "", finalCwd := sys.cwd,
      trace := [.errorMsg "No cmds provided"] }

/-- The `for note in notes` loop of `task_notes` (main.py:118-121): each note
is substituted then warned; a substitution failure propagates (there is no
handler in `task_notes`), keeping the warnings already printed. -/
def notesLoop (conf : Settings) : List String → List Ev × Except PyErr (List String)
  | [] => ([], .ok [])
  | n :: rest =>
    match sub_conf n conf with
    | .error e => ([], .error e)
    | .ok nv =>
      (Ev.warnMsg nv :: (notesLoop conf rest).1,
       ((notesLoop conf rest).2).map (nv :: ·))

/-- `task_notes(notes, conf)` (main.py:102-127): truthiness test (so `None`,
`''` and `[]` are all no-ops), single-string coercion, the substitution/warn
loop, and the two trailing blank warnings after a completed loop. -/
def task_notes (ns : Option StrOrList) (conf : Settings) :
    List Ev × Except PyErr (List String) :=
  match ns with
  | none => ([], .ok [])
  | some v =>
    if v.truthy then
      match notesLoop conf v.toList with
      | (msgs, .error e) => (msgs, .error e)
      | (msgs, .ok all) => (msgs ++ [.warnMsg "", .warnMsg ""], .ok all)
    else ([], .ok [])

/-- HTTP method of a `requests` call. -/
inductive Method where
  | GET
  | POST
  deriving Repr, DecidableEq

/-- The HTTP client as an oracle: method, substituted URL, headers and body
data to either a transport fault or (status code, response text). -/
structure Http where
  request : Method → String → List (String × String) → List (String × String) →
    Except String (Nat × String)

/-- Result of `task_web_request`, with the performed request attempts
(method and substituted URL) and reported messages made explicit. -/
structure WebOutcome where
  success : Bool
  status_code : Nat
  body : String
  attempts : List (Method × String)
  trace : List Ev
  deriving Repr, DecidableEq

/-- Python `dict.update`: existing keys keep their position with the new
value, new keys are appended in order. -/
def dictUpdate (base upd : List (String × String)) : List (String × String) :=
  base.map (fun kv => match List.lookup kv.1 upd with
    | some v => (kv.1, v)
    | none => kv) ++
  upd.filter (fun kv => (List.lookup kv.1 base).isNone)

/-- The header-substitution loop of `task_web_request` (main.py:201-204):
`sub_conf(hk, conf)` and `sub_conf(hv, conf)` on each pair, first failure
propagating to the surrounding `try`. -/
def subPairs (conf : Settings) : List (String × String) →
    Except PyErr (List (String × String))
  | [] => .ok []
  | (k, v) :: rest => do
    let k2 ← sub_conf k conf
    let v2 ← sub_conf v conf
    let r ← subPairs conf rest
    .ok ((k2, v2) :: r)

/-- The body-substitution loop of `task_web_request` (main.py:208-211).  The
source calls `sub_conf(dk)` and `sub_conf(dv)` WITHOUT the required `conf`
argument, so the first iteration raises
`TypeError: sub_conf() missing 1 required positional argument: conf`;
with an empty dict the loop body never runs. -/
def webDataLoop : List (String × String) → Except PyErr (List (String × String))
  | [] => .ok []
  | _ :: _ =>
    .error (.typeError "sub_conf() missing 1 required positional argument: conf")

/-- The default `USER_AGENT` constant (main.py:15), abbreviated to its
identifying prefix; no claim depends on the exact browser string. -/
def USER_AGENT : String := "Mozilla/5.0"

/-- `task_web_request(url, conf, data={}, user_headers={}, user_agent=...)`
(main.py:177-225): inside one `try`, substitute the URL, build headers with
the default user agent and the substituted user headers, then POST when
`data` is truthy else GET; any exception yields
`success=False, status_code=0, resp_text=""` after the `error` report. -/
def task_web_request (http : Http) (url : String) (conf : Settings)
    (data : List (String × String) := []) (user_headers : List (String × String) := [])
    (user_agent : String := USER_AGENT) : WebOutcome :=
  let run : List Ev × List (Method × String) × Except PyErr (Nat × String) :=
    match sub_conf url conf with
    | .error e => ([], [], .error e)
    | .ok url_sub =>
      let headers0 := [("User-Agent", user_agent)]
      let hres : Except PyErr (List (String × String)) :=
        if user_headers.isEmpty then .ok headers0
        else (dictUpdate headers0 ·) <$> subPairs conf user_headers
      match hres with
      | .error e => ([], [], .error e)
      | .ok headers =>
        if data.isEmpty then
          ([.debugMsg ("Making GET request to URL: " ++ url ++ "...")],
           [(Method.GET, url_sub)],
           (http.request .GET url_sub headers []).mapError PyErr.requestFault)
        else
          match webDataLoop data with
          | .error e => ([], [], .error e)
          | .ok data_sub =>
            ([.debugMsg ("Making POST request to URL: " ++ url ++ "...")],
             [(Method.POST, url_sub)],
             (http.request .POST url_sub headers data_sub).mapError PyErr.requestFault)
  match run with
  | (msgs, atts, .ok (sc, text)) =>
    { success := true, status_code := sc, body := text, attempts := atts, trace := msgs }
  | (msgs, atts, .error _e) =>
    { success := false, status_code := 0, body := "", attempts := atts,
      trace := msgs ++ [.errorMsg ("Error making web request to URL: " ++ url)] }

/-- `SEPERATOR = "-" * 60 + "\n\n"` (main.py:19). -/
def SEPERATOR : String := String.mk (List.replicate 60 '-') ++ "\n\n"

/-- One loaded check-definition mapping: the fields `execute_checks` reads
with `conf.get(...)`.  The `task` value is a dict modelled as an association
list from field name to string-or-list value. -/
structure CheckConf where
  summary : Option String
  description : Option String
  task : Option (List (String × StrOrList))
  deriving Repr, DecidableEq

/-- `d.get(k)` on a task dict: `None` when the key is absent. -/
def dget (tc : List (String × StrOrList)) (k : String) : Option StrOrList :=
  List.lookup k tc

/-- The f-string rendering of `task_type` in
`error(f"Error executing task of type: ...")`: `None` prints as `None`,
a string prints itself, a list prints bracketed (approximate list repr; no
claim depends on the list rendering). -/
def showTaskType : Option StrOrList → String
  | none => "None"
  | some (.str s) => s
  | some (.list l) => "[" ++ String.intercalate ", " l ++ "]"

/-- Truthy optional string (`if summary:` / `if description:`). -/
def optStrEvs (mk : String → Ev) (pre post : String) : Option String → List Ev
  | some s => if s.isEmpty then [] else [mk (pre ++ s ++ post)]
  | none => []

/-- The opening debug lines of one definition's processing
(main.py:403-409): the file name, then the truthy `summary` and
`description` fields. -/
def headerEvs (name : String) (sm ds : Option String) : List Ev :=
  [Ev.debugMsg ("Executing conf from file: " ++ name ++ "...")] ++
  optStrEvs Ev.debugMsg "Summary: " "" sm ++
  optStrEvs Ev.debugMsg "Description: " "..." ds

/-- The dispatch block of `execute_checks` (main.py:412-428): exact string
comparison of `task_type`/`type` with `'cmd'` (run `task_cmd` and report its
output) and `'notes'` (`pass`); anything else is reported as
`Error executing task of type: ...` with no executor invoked. -/
def dispatchStep (sys : Sys) (tc : List (String × StrOrList))
    (settings : Settings) : List Ev × Sys :=
  let task_type := (dget tc "task_type") <|> (dget tc "type")
  if task_type = some (.str "cmd") then
    let cmds := ((dget tc "cmd") <|> (dget tc "cmds")).getD (.list [])
    let cmd_dir := (((dget tc "cmd_dir") <|> (dget tc "dir")).getD (.str "")).asStr
    let oc := task_cmd sys cmds settings cmd_dir
    (oc.trace ++ [Ev.infoMsg ("Output of cmd:\n" ++ oc.output),
                  Ev.infoMsg "", Ev.infoMsg ""],
     { sys with cwd := oc.finalCwd })
  else if task_type = some (.str "notes") then ([], sys)
  else ([Ev.errorMsg ("Error executing task of type: " ++ showTaskType task_type)], sys)

/-- The body of `execute_checks`'s loop for one definition
(main.py:402-438): the header debug lines; if the `task` dict is truthy,
the dispatch block, then the unconditional `task_notes` step on
`notes`/`note`; finally `print(SEPERATOR)`.  An exception escaping
`task_notes` propagates (nothing in the source catches it).  Returns the
events and, on normal completion, the process state (`task_cmd` may have
touched the current directory). -/
def execute_one (sys : Sys) (name : String) (conf : CheckConf)
    (settings : Settings) : List Ev × Except PyErr Sys :=
  let evs2 := headerEvs name conf.summary conf.description
  match conf.task with
  | none => (evs2 ++ [Ev.plain SEPERATOR], .ok sys)
  | some tc =>
    if tc.isEmpty then (evs2 ++ [Ev.plain SEPERATOR], .ok sys)
    else
      let disp := dispatchStep sys tc settings
      match task_notes ((dget tc "notes") <|> (dget tc "note")) settings with
      | (nmsgs, .error e) => (evs2 ++ disp.1 ++ nmsgs, .error e)
      | (nmsgs, .ok _) => (evs2 ++ disp.1 ++ nmsgs ++ [Ev.plain SEPERATOR], .ok disp.2)

/-- `execute_checks(checks_confs, settings, out_folder)` (main.py:394-438):
the per-definition loop in load order; an uncaught exception from a
definition aborts the whole loop (and, in the source, the whole run). -/
def execute_checks (sys : Sys) (checks : List (String × CheckConf))
    (settings : Settings) : List Ev × Except PyErr Unit :=
  match checks with
  | [] => ([], .ok ())
  | (name, conf) :: rest =>
    match execute_one sys name conf settings with
    | (evs, .error e) => (evs, .error e)
    | (evs, .ok sys2) =>
      let (evs2, r2) := execute_checks sys2 rest settings
      (evs ++ evs2, r2)

/-- One check-definition source file as the loader sees it: its path, its
raw text (what the input-scanning `open(...).read()` returns), whether
`yaml.safe_load` succeeds on it, and the loaded configuration when it does.
The model's file list stands for the files the source visits (existing
files, and the files of walked directories, in visit order). -/
structure SrcFile where
  path : String
  text : String
  yamlOk : Bool
  parsed : CheckConf
  deriving Repr, DecidableEq

/-- The per-file loop of `parse_checks_files` (main.py:336-377): files not
matching the regex are skipped; for a matching file the raw text is scanned
for `INPUTS_REGEX` tokens (before and independently of YAML parsing), then
`yaml.safe_load` either contributes `all_conf[path] = conf` or is caught and
reported with `Error parsing file: ...`, excluding only the configuration. -/
def parseGo (rx : String → Bool) :
    List SrcFile → List (String × CheckConf) × List String × List Ev
  | [] => ([], [], [])
  | f :: rest =>
    if rx f.path then
      let toks := findTokens f.text.data
      let ev0 := Ev.debugMsg ("Parsing conf file: " ++ f.path ++
        " for inputs and YAML config...")
      if f.yamlOk then
        ((f.path, f.parsed) :: (parseGo rx rest).1,
         toks ++ (parseGo rx rest).2.1,
         ev0 :: (parseGo rx rest).2.2)
      else
        ((parseGo rx rest).1,
         toks ++ (parseGo rx rest).2.1,
         ev0 :: Ev.errorMsg ("Error parsing file: " ++ f.path) :: (parseGo rx rest).2.2)
    else parseGo rx rest

/-- `parse_checks_files(checks_files, regex)` (main.py:322-379): returns
`(all_conf, list(all_inputs))`; `all_inputs` is a set, modelled as the
deduplicated token list (statements about it use membership only, which is
iteration-order independent). -/
def parse_checks_files (files : List SrcFile) (rx : String → Bool) :
    List (String × CheckConf) × List String × List Ev :=
  let (confs, inputs, evs) := parseGo rx files
  (confs, inputs.dedup, evs)

/-- `check_if_all_inputs_supplied(inputs, settings)` (main.py:441-454):
reports each missing input and returns whether all were supplied. -/
def check_if_all_inputs_supplied (inputs : List String) (settings : Settings) :
    Bool × List Ev :=
  inputs.foldl
    (fun acc inp =>
      if (List.lookup inp settings).isSome then acc
      else (false, acc.2 ++ [Ev.errorMsg ("input: " ++ inp ++ " not supplied in settings")]))
    (true, [])

/-- A syntactic chunk of a template: a literal character or a replacement
field `\x7btok\x7d`.  Templates built from chunks are the fragment over
which the spec's algebraic substitution properties are stated. -/
inductive Chunk where
  | lit (c : Char)
  | field (tok : String)
  deriving Repr, DecidableEq

/-- The template text denoted by a chunk list. -/
def renderChunks : List Chunk → List Char
  | [] => []
  | .lit c :: rest => c :: renderChunks rest
  | .field t :: rest => '{' :: (t.data ++ ('}' :: renderChunks rest))

/-- Well-formedness: literal characters are not braces; field tokens are
nonempty words of `INPUTS_REGEX` token characters that are not all digits
(all-digit fields are positional indices for `str.format`, not keywords). -/
def wfChunk : Chunk → Prop
  | .lit c => c ≠ '{' ∧ c ≠ '}'
  | .field t => t.data ≠ [] ∧ (∀ c ∈ t.data, isTokenChar c = true) ∧
      ¬(∀ c ∈ t.data, c.isDigit = true)

/-- The substituted text: literals verbatim, fields replaced by their
settings value. -/
def renderSub (conf : Settings) : List Chunk → List Char
  | [] => []
  | .lit c :: rest => c :: renderSub conf rest
  | .field t :: rest => ((List.lookup t conf).getD "").data ++ renderSub conf rest

/-- Process environment whose shell is never reached. -/
def sysNull : Sys :=
  { cwd := "/", dirs := [], shell := fun _ _ => .error "unreachable" }

/-- Process environment whose shell always launches and prints `out`. -/
def sysEcho : Sys :=
  { cwd := "/", dirs := [], shell := fun _ _ => .ok (0, "out") }

/-- Process environment whose shell prints output padded with whitespace on
both sides. -/
def sysWs : Sys :=
  { cwd := "/", dirs := [], shell := fun _ _ => .ok (0, " hi \n") }

/-- An HTTP client that always answers 200/`resp`. -/
def httpOk : Http := { request := fun _ _ _ _ => .ok (200, "resp") }

/-- Process environment whose shell launches fine but exits with status 7. -/
def sysExit7 : Sys :=
  { cwd := "/", dirs := [], shell := fun _ _ => .ok (7, "out") }

/-- A check-definition file whose YAML parsing fails, its raw text carrying
the placeholder token `tok`. -/
def badFile : SrcFile :=
  { path := "bad.yaml", text := braced "tok" ++ ": [", yamlOk := false,
    parsed := ⟨none, none, none⟩ }

example : sub_conf (braced "k") [("k", "v")] = .ok "v" := by decide
example : sub_conf (braced "k") [] = .error (.keyError "k") := by decide
example : sub_conf (obr ++ obr ++ "k" ++ cbr ++ cbr) [] = .ok (braced "k") := by decide
example : findTokens (obr ++ obr ++ "k" ++ cbr ++ cbr).data = ["k"] := by decide
example : findTokens (braced "a-b").data = ["a-b"] := by decide
example : findTokens (obr ++ "a b" ++ cbr).data = [] := by decide
example : pyStrip " hi \n" = "hi" := by decide
example : pyRstrip " hi \n" = " hi" := by decide

/-- C1 counterexample: a missing placeholder token in a `notes` template is
NOT a recoverable per-task error — nothing between `sub_conf` and `main`
catches it at the notes call site, so the whole run crashes: with two
loaded definitions, the first carrying the note `\x7bx\x7d` and empty
settings, `execute_checks` aborts with `KeyError('x')` right after the first
definition's opening debug line, and the second definition (`b.yaml`) is
never reached. -/
theorem c1_notes_crash_counterexample :
    execute_checks sysNull
      [("a.yaml", ⟨none, none, some [("type", .str "notes"), ("notes", .str (braced "x"))]⟩),
       ("b.yaml", ⟨none, none, some [("type", .str "notes"), ("notes", .str "done")]⟩)] [] =
      ([Ev.debugMsg "Executing conf from file: a.yaml..."],
       .error (.keyError "x")) ∧
    Ev.debugMsg "Executing conf from file: b.yaml..." ∉
      (execute_checks sysNull
        [("a.yaml", ⟨none, none, some [("type", .str "notes"), ("notes", .str (braced "x"))]⟩),
         ("b.yaml", ⟨none, none, some [("type", .str "notes"), ("notes", .str "done")]⟩)] []).1 := by
  decide

/-- C2: the commands `["echo a", "echo b"]` are joined into
`"echo a; echo b"`, but the `for c in cmds` loop then hands that joined
string to the shell once per input line — two identical shell invocations
here, not the single invocation the spec describes (the single-line case
does collapse to exactly one invocation). -/
theorem c2_joined_cmd_invoked_per_line :
    task_cmd sysEcho (.list ["echo a", "echo b"]) [] "" =
      { success := true, output := "out", finalCwd := "/",
        trace := [Ev.debugMsg "Executing command: echo a; echo b...",
                  Ev.shellInv "/" "echo a; echo b",
                  Ev.debugMsg "Executing command: echo a; echo b...",
                  Ev.shellInv "/" "echo a; echo b"] } ∧
    invocationsOf (task_cmd sysEcho (.list ["echo a", "echo b"]) [] "").trace =
      [("/", "echo a; echo b"), ("/", "echo a; echo b")] ∧
    invocationsOf (task_cmd sysEcho (.list ["echo hi"]) [] "").trace =
      [("/", "echo hi")] := by
  decide

/-- C3: with non-empty body data the HTTP executor never issues a POST:
the body-substitution loop calls `sub_conf(dk)` without its required `conf`
argument, so it raises `TypeError` before `requests.post` is reached, and
even against a perfectly healthy transport the result is
`success=false, status_code=0, body=""` with zero attempts.  With empty
body data a single GET attempt is made as claimed. -/
theorem c3_post_never_issued :
    task_web_request httpOk "http://h" [] [("a", "b")] [] USER_AGENT =
      { success := false, status_code := 0, body := "", attempts := [],
        trace := [Ev.errorMsg "Error making web request to URL: http://h"] } ∧
    task_web_request httpOk "http://h" [] [] [] USER_AGENT =
      { success := true, status_code := 200, body := "resp",
        attempts := [(Method.GET, "http://h")],
        trace := [Ev.debugMsg "Making GET request to URL: http://h..."] } := by
  decide

/-- C4 counterexample: kind matching is case-SENSITIVE, not
case-insensitive: the task type `"CMD"` is dispatched to the
unrecognized-kind error branch (no shell invocation at all), while the same
definition with `"cmd"` runs the command executor. -/
theorem c4_uppercase_kind_counterexample :
    execute_checks sysEcho
      [("f.yaml", ⟨none, none, some [("type", .str "CMD"), ("cmd", .str "echo hi")]⟩)] [] =
      ([Ev.debugMsg "Executing conf from file: f.yaml...",
        Ev.errorMsg "Error executing task of type: CMD",
        Ev.plain SEPERATOR], .ok ()) ∧
    invocationsOf (execute_checks sysEcho
      [("f.yaml", ⟨none, none, some [("type", .str "CMD"), ("cmd", .str "echo hi")]⟩)] []).1 =
      [] ∧
    invocationsOf (execute_checks sysEcho
      [("f.yaml", ⟨none, none, some [("type", .str "cmd"), ("cmd", .str "echo hi")]⟩)] []).1 =
      [("/", "echo hi")] := by
  decide

/-- C5 counterexample: a definition file whose YAML parsing fails is
reported and its configuration is excluded, but its placeholder tokens are
NOT absent from the required-token set: the raw text is scanned for tokens
before (and independently of) the parse, so `tok` from the unparseable file
still reaches validation and makes a token-less settings set fail it. -/
theorem c5_failed_parse_tokens_counterexample :
    parse_checks_files [badFile] (fun _ => true) =
      ([], ["tok"],
       [Ev.debugMsg "Parsing conf file: bad.yaml for inputs and YAML config...",
        Ev.errorMsg "Error parsing file: bad.yaml"]) ∧
    "tok" ∈ (parse_checks_files [badFile] (fun _ => true)).2.1 ∧
    (check_if_all_inputs_supplied ["tok"] []).1 = false := by
  decide

/-- C6 counterexample: both halves of the claim fail on `str.format`
behaviour.  (1) With `T = \x7bk\x7d` and the identity-style value
`S(k) = "\x7bk\x7d"` — every token of `T` is a key of `S` — substitution
succeeds but the result still contains the `\x7bk\x7d` pattern (values are
inserted verbatim).  (2) With `T = \x7b\x7bk\x7d\x7d` (whose only
`INPUTS_REGEX` token is `k`) and the brace-free value `S(k) = "v"`, the
escaped braces collapse to a fresh `\x7bk\x7d` pattern, and the identity
mapping does not round-trip: it yields `\x7bk\x7d ≠ \x7b\x7bk\x7d\x7d`. -/
theorem c6_pattern_counterexample :
    findTokens (braced "k").data = ["k"] ∧
    sub_conf (braced "k") [("k", braced "k")] = .ok (braced "k") ∧
    findTokens (braced "k").data ≠ [] ∧
    findTokens (obr ++ obr ++ "k" ++ cbr ++ cbr).data = ["k"] ∧
    sub_conf (obr ++ obr ++ "k" ++ cbr ++ cbr) [("k", "v")] = .ok (braced "k") ∧
    sub_conf (obr ++ obr ++ "k" ++ cbr ++ cbr) [("k", braced "k")] = .ok (braced "k") ∧
    braced "k" ≠ obr ++ obr ++ "k" ++ cbr ++ cbr := by
  decide

/-- C8 counterexample: a notes value that is the single EMPTY string is not
treated as the one-element sequence `[""]`: the truthiness test `if notes:`
makes `""` a no-op, while `[""]` emits one (empty) substituted note plus the
two trailing blank warnings. -/
theorem c8_empty_string_notes_counterexample :
    task_notes (some (.str "")) [] = ([], .ok []) ∧
    task_notes (some (.list [""])) [] =
      ([Ev.warnMsg "", Ev.warnMsg "", Ev.warnMsg ""], .ok [""]) ∧
    task_notes (some (.str "")) [] ≠ task_notes (some (.list [""])) [] := by
  decide

/-- C9 counterexample: the captured output is `.strip()`-ed, which removes
LEADING whitespace as well: a shell whose combined output is `" hi \n"`
yields `output = "hi"`, not the trailing-only-stripped `" hi"` the claim
describes. -/
theorem c9_leading_whitespace_counterexample :
    task_cmd sysWs (.str "c") [] "" =
      { success := true, output := "hi", finalCwd := "/",
        trace := [Ev.debugMsg "Executing command: c...", Ev.shellInv "/" "c"] } ∧
    pyRstrip " hi \n" = " hi" ∧
    (task_cmd sysWs (.str "c") [] "").output ≠ pyRstrip " hi \n" := by
  decide

end PyEngine

namespace PyEngine

lemma sub_conf_empty (conf : Settings) : sub_conf "" conf = .ok "" := rfl

lemma truthy_str_of_ne {s : String} (hs : s ≠ "") : (StrOrList.str s).truthy = true := by
  cases h : s.isEmpty with
  | false => simp [StrOrList.truthy, h]
  | true => exact absurd ((String.isEmpty_iff s).mp h) hs

/-- C10: with an empty command list or an empty command string (Python-falsy
`cmds`), `task_cmd` performs no shell invocation at all: it reports
`No cmds provided` and returns the failure result (`success=false`, empty
output), leaving the current working directory unchanged. -/
theorem c10_no_cmds_no_invocation (sys : Sys) (conf : Settings) (dir : String) :
    task_cmd sys (.list []) conf dir =
      { success := false, output := "", finalCwd := sys.cwd,
        trace := [Ev.errorMsg "No cmds provided"] } ∧
    task_cmd sys (.str "") conf dir =
      { success := false, output := "", finalCwd := sys.cwd,
        trace := [Ev.errorMsg "No cmds provided"] } ∧
    invocationsOf [Ev.errorMsg "No cmds provided"] = [] := ⟨rfl, rfl, rfl⟩

/-- C9 (amended): whenever substitution succeeds and the shell launches,
`task_cmd` returns `success=true` with output equal to the captured combined
stdout+stderr, decoded and stripped of leading AND trailing whitespace
(`strip()`), for every subprocess exit code — a nonzero exit status never
makes the result `success=false`. -/
theorem c9_cmd_success_ignores_exit_code (sys : Sys) (conf : Settings)
    (s subbed raw : String) (code : Int) (hs : s ≠ "")
    (hsub : sub_conf s conf = .ok subbed)
    (hshell : sys.shell sys.cwd subbed = .ok (code, raw)) :
    task_cmd sys (.str s) conf "" =
      { success := true, output := pyStrip raw, finalCwd := sys.cwd,
        trace := [Ev.debugMsg ("Executing command: " ++ s ++ "..."),
                  Ev.shellInv sys.cwd subbed] } := by
  have ht := truthy_str_of_ne hs
  simp only [task_cmd, ht, if_true, StrOrList.toList]
  have hi : String.intercalate "; " [s] = s := rfl
  simp [hi, cmdIter, hsub, hshell]

lemma cmdIter_trace_pre (sys : Sys) (cur : String) (conf : Settings) (ce : String)
    (pre : List Ev) (st : LoopSt) (c : String) :
    cmdIter sys cur conf ce { st with trace := pre ++ st.trace } c =
      { cmdIter sys cur conf ce st c with
        trace := pre ++ (cmdIter sys cur conf ce st c).trace } := by
  unfold cmdIter
  cases sub_conf ce conf with
  | error e => simp
  | ok subbed =>
    cases hsh : sys.shell cur subbed with
    | error f => simp [hsh]
    | ok p => cases p with | mk code raw => simp [hsh]

lemma foldl_cmdIter_trace_pre (sys : Sys) (cur : String) (conf : Settings) (ce : String)
    (pre : List Ev) :
    ∀ (l : List String) (st : LoopSt),
      l.foldl (cmdIter sys cur conf ce) { st with trace := pre ++ st.trace } =
        { l.foldl (cmdIter sys cur conf ce) st with
          trace := pre ++ (l.foldl (cmdIter sys cur conf ce) st).trace } := by
  intro l
  induction l with
  | nil => intro st; simp
  | cons c rest ih =>
    intro st
    simp only [List.foldl_cons, cmdIter_trace_pre]
    exact ih _

/-- C7: the process-wide current directory equals its prior value when
`task_cmd` returns, on every input and so on every exit path; and when the
given working directory does not exist, the outcome is identical to the run
without a working directory except for the prepended
`Cmd directory ... does not exist` error report — a reported, non-fatal
error with the commands still executed in the original directory. -/
theorem c7_workdir_restored (sys : Sys) (cmds : StrOrList) (conf : Settings) (dir : String) :
    (task_cmd sys cmds conf dir).finalCwd = sys.cwd ∧
    (cmds.truthy = true → dir ≠ "" → dir ∉ sys.dirs →
      task_cmd sys cmds conf dir =
        { task_cmd sys cmds conf "" with
          trace := Ev.errorMsg ("Cmd directory: " ++ dir ++ " does not exist") ::
            (task_cmd sys cmds conf "").trace }) := by
  constructor
  · cases ht : cmds.truthy with
    | false => simp [task_cmd, ht]
    | true =>
      by_cases hd : dir = "" <;> simp [task_cmd, ht, hd]
  · intro ht hdir hmem
    have key := foldl_cmdIter_trace_pre sys sys.cwd conf (String.intercalate "; " cmds.toList)
      [Ev.errorMsg ("Cmd directory: " ++ dir ++ " does not exist")] cmds.toList ⟨false, "", []⟩
    simp only [List.append_nil] at key
    simp [task_cmd, ht, hdir, hmem, key]

/-- C1 (amended): a placeholder token missing from the settings makes
`sub_conf` fail with `KeyError(token)`; at the command-executor call site the
failure is caught (failure result, error reported, no shell launch), and at
the HTTP call site it is caught (`success=false`, `status_code=0`, empty
body, no request attempt); but at the notes call site the error propagates
out of `task_notes` uncaught, so a run reaching such a note crashes:
`execute_checks` aborts with the error for any suffix of remaining
definitions. -/
theorem c1_substitution_error_sites (sys : Sys) (http : Http) (conf : Settings)
    (t : String) (e : PyErr) (h : sub_conf t conf = .error e) :
    task_cmd sys (.str t) conf "" =
      { success := false, output := "", finalCwd := sys.cwd,
        trace := [Ev.debugMsg ("Executing command: " ++ t ++ "..."),
                  Ev.errorMsg ("Error executing command: " ++ t)] } ∧
    task_web_request http t conf [] [] USER_AGENT =
      { success := false, status_code := 0, body := "", attempts := [],
        trace := [Ev.errorMsg ("Error making web request to URL: " ++ t)] } ∧
    (task_notes (some (.str t)) conf).2 = .error e ∧
    (∀ (name : String) (rest : List (String × CheckConf)),
      (execute_checks sys ((name, ⟨none, none,
        some [("type", .str "notes"), ("notes", .str t)]⟩) :: rest) conf).2 = .error e) := by
  have htne : t ≠ "" := by
    intro h0
    rw [h0, sub_conf_empty] at h
    exact Except.noConfusion h
  have ht := truthy_str_of_ne htne
  have h3 : (task_notes (some (.str t)) conf).2 = .error e := by
    simp [task_notes, ht, StrOrList.toList, notesLoop, h]
  refine ⟨?_, ?_, h3, ?_⟩
  · simp only [task_cmd, ht, if_true, StrOrList.toList]
    have hi : String.intercalate "; " [t] = t := rfl
    simp [hi, cmdIter, h]
  · simp [task_web_request, h]
  · intro name rest
    obtain ⟨nm, hnm⟩ : ∃ nm, task_notes (some (.str t)) conf = (nm, .error e) :=
      ⟨(task_notes (some (.str t)) conf).1, by rw [← h3]⟩
    simp [execute_checks, execute_one, dispatchStep, dget, List.lookup, hnm]

lemma invocationsOf_append (a b : List Ev) :
    invocationsOf (a ++ b) = invocationsOf a ++ invocationsOf b := by
  simp [invocationsOf]

lemma notesLoop_trace_warn (conf : Settings) :
    ∀ (l : List String), ∀ ev ∈ (notesLoop conf l).1, ∃ w, ev = Ev.warnMsg w := by
  intro l
  induction l with
  | nil => intro ev h; cases h
  | cons n rest ih =>
    intro ev h
    simp only [notesLoop] at h
    cases hs : sub_conf n conf with
    | error e => rw [hs] at h; cases h
    | ok nv =>
      rw [hs] at h
      rcases List.mem_cons.mp h with h1 | h2
      · exact ⟨nv, h1⟩
      · exact ih ev h2

lemma task_notes_trace_warn (ns : Option StrOrList) (conf : Settings) :
    ∀ ev ∈ (task_notes ns conf).1, ∃ w, ev = Ev.warnMsg w := by
  intro ev h
  cases ns with
  | none => cases h
  | some v =>
    simp only [task_notes] at h
    by_cases ht : v.truthy = true
    · rw [if_pos ht] at h
      cases hl : notesLoop conf v.toList with
      | mk msgs res =>
        rw [hl] at h
        cases res with
        | error e =>
          have : ev ∈ (notesLoop conf v.toList).1 := by rw [hl]; exact h
          exact notesLoop_trace_warn conf v.toList ev this
        | ok all =>
          rcases List.mem_append.mp h with h1 | h2
          · have : ev ∈ (notesLoop conf v.toList).1 := by rw [hl]; exact h1
            exact notesLoop_trace_warn conf v.toList ev this
          · rcases List.mem_cons.mp h2 with h3 | h4
            · exact ⟨"", h3⟩
            · rcases List.mem_cons.mp h4 with h5 | h6
              · exact ⟨"", h5⟩
              · cases h6
    · rw [if_neg ht] at h; cases h

lemma invocationsOf_warn_nil (l : List Ev) (h : ∀ ev ∈ l, ∃ w, ev = Ev.warnMsg w) :
    invocationsOf l = [] := by
  induction l with
  | nil => rfl
  | cons ev rest ih =>
    obtain ⟨w, hw⟩ := h ev (List.mem_cons_self ev rest)
    subst hw
    have hr : invocationsOf rest = [] := ih (fun e he => h e (List.mem_cons_of_mem _ he))
    simpa [invocationsOf] using hr

lemma invocationsOf_optStrEvs (pre post : String) (o : Option String) :
    invocationsOf (optStrEvs Ev.debugMsg pre post o) = [] := by
  cases o with
  | none => rfl
  | some s => by_cases h : s.isEmpty = true <;> simp [optStrEvs, h, invocationsOf]

/-- C4 (amended): a `task_type`/`type` value that is not exactly the string
`cmd` or `notes` (matching is case-sensitive, exact) makes `execute_one`
report `Error executing task of type: ...`, invoke no executor (no shell
invocation in its events), and complete normally, and `execute_checks`
continues with the remaining definitions unchanged. -/
theorem c4_unrecognized_kind_reported (sys : Sys) (settings : Settings) (name : String)
    (sm ds : Option String) (tc : List (String × StrOrList))
    (rest : List (String × CheckConf)) (ns : List String)
    (htc : tc ≠ [])
    (h1 : (dget tc "task_type" <|> dget tc "type") ≠ some (.str "cmd"))
    (h2 : (dget tc "task_type" <|> dget tc "type") ≠ some (.str "notes"))
    (hn : (task_notes (dget tc "notes" <|> dget tc "note") settings).2 = .ok ns) :
    Ev.errorMsg ("Error executing task of type: " ++
        showTaskType (dget tc "task_type" <|> dget tc "type")) ∈
      (execute_one sys name ⟨sm, ds, some tc⟩ settings).1 ∧
    invocationsOf (execute_one sys name ⟨sm, ds, some tc⟩ settings).1 = [] ∧
    (execute_one sys name ⟨sm, ds, some tc⟩ settings).2 = .ok sys ∧
    execute_checks sys ((name, ⟨sm, ds, some tc⟩) :: rest) settings =
      ((execute_one sys name ⟨sm, ds, some tc⟩ settings).1 ++
        (execute_checks sys rest settings).1,
       (execute_checks sys rest settings).2) := by
  have hemp : tc.isEmpty = false := by
    cases tc with
    | nil => exact absurd rfl htc
    | cons a l => rfl
  obtain ⟨nm, hnm⟩ : ∃ nm,
      task_notes (dget tc "notes" <|> dget tc "note") settings = (nm, .ok ns) :=
    ⟨(task_notes (dget tc "notes" <|> dget tc "note") settings).1, by rw [← hn]⟩
  have hone : execute_one sys name ⟨sm, ds, some tc⟩ settings =
      (headerEvs name sm ds ++
        ([Ev.errorMsg ("Error executing task of type: " ++
          showTaskType (dget tc "task_type" <|> dget tc "type"))] ++
         (nm ++ [Ev.plain SEPERATOR])), .ok sys) := by
    simp [execute_one, dispatchStep, hemp, h1, h2, hnm]
  have hwarn : ∀ ev ∈ nm, ∃ w, ev = Ev.warnMsg w := by
    intro ev he
    apply task_notes_trace_warn (dget tc "notes" <|> dget tc "note") settings
    rw [hnm]
    exact he
  refine ⟨?_, ?_, ?_, ?_⟩
  · rw [hone]; simp
  · rw [hone]
    simp only [headerEvs, invocationsOf_append, invocationsOf_optStrEvs,
      invocationsOf_warn_nil nm hwarn]
    rfl
  · rw [hone]
  · simp only [execute_checks, hone]

lemma parseGo_characterization (rx : String → Bool) :
    ∀ files : List SrcFile,
      (parseGo rx files).1 =
        (files.filter (fun f => rx f.path && f.yamlOk)).map (fun f => (f.path, f.parsed)) ∧
      (parseGo rx files).2.1 =
        (files.filter (fun f => rx f.path)).flatMap (fun f => findTokens f.text.data) := by
  intro files
  induction files with
  | nil => exact ⟨rfl, rfl⟩
  | cons f rest ih =>
    obtain ⟨ih1, ih2⟩ := ih
    by_cases hrx : rx f.path = true
    · by_cases hy : f.yamlOk = true
      · constructor <;> simp [parseGo, hrx, hy, ih1, ih2, List.filter_cons]
      · have hy2 : f.yamlOk = false := by simpa using hy
        constructor <;> simp [parseGo, hrx, hy2, ih1, ih2, List.filter_cons]
    · have hrx2 : rx f.path = false := by simpa using hrx
      constructor <;> simp [parseGo, hrx2, ih1, ih2, List.filter_cons]

lemma parseGo_err_mem (rx : String → Bool) :
    ∀ (files : List SrcFile) (f : SrcFile), f ∈ files → rx f.path = true →
      f.yamlOk = false →
      Ev.errorMsg ("Error parsing file: " ++ f.path) ∈ (parseGo rx files).2.2 := by
  intro files
  induction files with
  | nil => intro f hf; cases hf
  | cons g rest ih =>
    intro f hf hrx hy
    rcases List.mem_cons.mp hf with rfl | hmem
    · simp [parseGo, hrx, hy]
    · have tail := ih f hmem hrx hy
      by_cases hg : rx g.path = true
      · by_cases hgy : g.yamlOk = true
        · simp [parseGo, hg, hgy, tail]
        · have : g.yamlOk = false := by simpa using hgy
          simp [parseGo, hg, this, tail]
      · have : rx g.path = false := by simpa using hg
        simp [parseGo, this, tail]

/-- C5 (amended): the parsed configurations are exactly the regex-matching
files whose YAML load succeeds, in order — a file failing structured parsing
contributes no task, is reported with `Error parsing file: ...`, and the run
continues with the remaining definitions — but the raw-text placeholder
tokens of EVERY matching file, the failing ones included, are in the
required-token set used for validation. -/
theorem c5_failed_parse_excludes_conf_keeps_tokens (files : List SrcFile)
    (rx : String → Bool) :
    (parse_checks_files files rx).1 =
      (files.filter (fun f => rx f.path && f.yamlOk)).map (fun f => (f.path, f.parsed)) ∧
    (∀ f ∈ files, rx f.path = true →
      ∀ tok ∈ findTokens f.text.data, tok ∈ (parse_checks_files files rx).2.1) ∧
    (∀ f ∈ files, rx f.path = true → f.yamlOk = false →
      Ev.errorMsg ("Error parsing file: " ++ f.path) ∈ (parse_checks_files files rx).2.2) := by
  obtain ⟨h1, h2⟩ := parseGo_characterization rx files
  refine ⟨h1, ?_, ?_⟩
  · intro f hf hrx tok htok
    show tok ∈ ((parseGo rx files).2.1).dedup
    rw [List.mem_dedup, h2]
    exact List.mem_flatMap.mpr ⟨f, List.mem_filter.mpr ⟨hf, hrx⟩, htok⟩
  · intro f hf hrx hy
    exact parseGo_err_mem rx files f hf hrx hy

lemma cmdIter_no_warn (sys : Sys) (cur : String) (conf : Settings) (ce : String)
    (st : LoopSt) (c : String) (w : String) :
    Ev.warnMsg w ∈ (cmdIter sys cur conf ce st c).trace → Ev.warnMsg w ∈ st.trace := by
  intro h
  simp only [cmdIter] at h
  split at h
  · simpa using h
  · split at h
    · simpa using h
    · simpa using h

lemma foldl_cmdIter_no_warn (sys : Sys) (cur : String) (conf : Settings) (ce : String)
    (w : String) :
    ∀ (l : List String) (st : LoopSt),
      Ev.warnMsg w ∈ (l.foldl (cmdIter sys cur conf ce) st).trace →
        Ev.warnMsg w ∈ st.trace := by
  intro l
  induction l with
  | nil => intro st h; exact h
  | cons c rest ih => intro st h; exact cmdIter_no_warn sys cur conf ce st c w (ih _ h)

lemma task_cmd_no_warn (sys : Sys) (cmds : StrOrList) (conf : Settings) (dir : String)
    (w : String) : Ev.warnMsg w ∉ (task_cmd sys cmds conf dir).trace := by
  intro h
  by_cases ht : cmds.truthy = true
  · simp only [task_cmd, ht, if_true] at h
    have h2 := foldl_cmdIter_no_warn sys _ conf _ w cmds.toList _ h
    split at h2 <;> simp_all
  · simp [task_cmd, ht] at h

lemma optStrEvs_no_warn (pre post : String) (o : Option String) (w : String) :
    Ev.warnMsg w ∉ optStrEvs Ev.debugMsg pre post o := by
  intro h
  cases o with
  | none => cases h
  | some s =>
    by_cases hs : s.isEmpty = true <;> simp [optStrEvs, hs] at h

lemma headerEvs_no_warn (name : String) (sm ds : Option String) (w : String) :
    Ev.warnMsg w ∉ headerEvs name sm ds := by
  intro h
  rcases List.mem_append.mp h with hA | hB
  · rcases List.mem_append.mp hA with hC | hD
    · simp at hC
    · exact optStrEvs_no_warn _ _ _ _ hD
  · exact optStrEvs_no_warn _ _ _ _ hB

lemma dispatchStep_no_warn (sys : Sys) (tc : List (String × StrOrList))
    (settings : Settings) (w : String) :
    Ev.warnMsg w ∉ (dispatchStep sys tc settings).1 := by
  intro h
  by_cases h1 : ((dget tc "task_type") <|> (dget tc "type")) = some (.str "cmd")
  · simp only [dispatchStep, h1, if_true] at h
    rcases List.mem_append.mp h with hA | hB
    · exact task_cmd_no_warn _ _ _ _ w hA
    · simp at hB
  · by_cases h2 : ((dget tc "task_type") <|> (dget tc "type")) = some (.str "notes")
    · simp [dispatchStep, h1, h2] at h
    · simp [dispatchStep, h1, h2] at h

/-- C8 (amended): a notes value that is a single non-empty string is
processed exactly like the one-element sequence; an absent notes field is a
no-op, not an error; and for every dispatched definition (truthy task dict)
the events of `execute_one` are the task-step events — which contain no note
warnings — followed by exactly one block of `task_notes` events, regardless
of the task's kind or outcome, with an error from the notes step (and only
from it) aborting the definition. -/
theorem c8_notes_once_after_task (conf : Settings) (s : String) (hs : s ≠ "") :
    task_notes (some (.str s)) conf = task_notes (some (.list [s])) conf ∧
    task_notes none conf = ([], .ok []) ∧
    (∀ (sys : Sys) (name : String) (sm ds : Option String)
        (tc : List (String × StrOrList)) (settings : Settings), tc ≠ [] →
      ∃ mainEvs sys2, (∀ w, Ev.warnMsg w ∉ mainEvs) ∧
        execute_one sys name ⟨sm, ds, some tc⟩ settings =
          (match task_notes ((dget tc "notes") <|> (dget tc "note")) settings with
           | (nm, .error e) => (mainEvs ++ nm, .error e)
           | (nm, .ok _) => (mainEvs ++ nm ++ [Ev.plain SEPERATOR], .ok sys2))) := by
  refine ⟨?_, rfl, ?_⟩
  · have h1 : (StrOrList.str s).truthy = true := truthy_str_of_ne hs
    have h2 : (StrOrList.list [s]).truthy = true := rfl
    simp [task_notes, StrOrList.toList, h1, h2]
  · intro sys name sm ds tc settings htc
    have hemp : tc.isEmpty = false := by
      cases tc with
      | nil => exact absurd rfl htc
      | cons a l => rfl
    refine ⟨headerEvs name sm ds ++ (dispatchStep sys tc settings).1,
      (dispatchStep sys tc settings).2, ?_, ?_⟩
    · intro w hw
      rcases List.mem_append.mp hw with hA | hB
      · exact headerEvs_no_warn name sm ds w hA
      · exact dispatchStep_no_warn sys tc settings w hB
    · cases hw : task_notes ((dget tc "notes") <|> (dget tc "note")) settings with
      | mk nm res =>
        cases res with
        | error e => simp [execute_one, hemp, hw]
        | ok x => simp [execute_one, hemp, hw]

lemma isTokenChar_ne_braces {c : Char} (h : isTokenChar c = true) : c ≠ '{' ∧ c ≠ '}' := by
  constructor <;> rintro rfl <;> exact absurd h (by decide)

lemma pyFormatGo_field (conf : Settings) (r : List Char) :
    ∀ (tok acc : List Char), (∀ c ∈ tok, isTokenChar c = true) →
      pyFormatGo conf (some acc) (tok ++ '}' :: r) =
        (do
          let v ← fieldResult conf (acc ++ tok)
          let t ← pyFormatGo conf none r
          .ok (v ++ t)) := by
  intro tok
  induction tok with
  | nil =>
    intro acc htok
    simp [pyFormatGo]
  | cons c tok ih =>
    intro acc htok
    have hc := htok c (List.mem_cons_self c tok)
    have hcne : c ≠ '}' := (isTokenChar_ne_braces hc).2
    rw [List.cons_append]
    simp only [pyFormatGo]
    rw [if_neg hcne, ih (acc ++ [c]) (fun d hd => htok d (List.mem_cons_of_mem c hd)),
      List.append_assoc]
    rfl

lemma renderChunks_eq_nil {ts : List Chunk} (h : renderChunks ts = []) : ts = [] := by
  cases ts with
  | nil => rfl
  | cons ch rest => cases ch <;> simp [renderChunks] at h

lemma pyFormatGo_renderChunks (conf : Settings) :
    ∀ ts : List Chunk, (∀ ch ∈ ts, wfChunk ch) →
      (∀ t, Chunk.field t ∈ ts → (List.lookup t conf).isSome = true) →
      pyFormatGo conf none (renderChunks ts) = .ok (renderSub conf ts) := by
  intro ts
  induction ts with
  | nil => intro _ _; rfl
  | cons ch rest ih =>
    intro hwf hlk
    have ihr := ih (fun c hc => hwf c (List.mem_cons_of_mem ch hc))
      (fun t ht => hlk t (List.mem_cons_of_mem ch ht))
    cases ch with
    | lit c =>
      obtain ⟨hc1, hc2⟩ : c ≠ '{' ∧ c ≠ '}' := hwf (.lit c) (List.mem_cons_self _ _)
      cases hr : renderChunks rest with
      | nil =>
        have h0 : rest = [] := renderChunks_eq_nil hr
        subst h0
        simp only [renderChunks, renderSub, pyFormatGo]
        rw [if_neg hc1, if_neg hc2]
      | cons c2 r2 =>
        simp only [renderChunks, hr, pyFormatGo]
        rw [if_neg hc1, if_neg hc2, ← hr, ihr]
        simp [renderSub]
    | field t =>
      obtain ⟨ht1, ht2, ht3⟩ := hwf (.field t) (List.mem_cons_self _ _)
      have hdig : t.data.all Char.isDigit = false := by
        cases hda : t.data.all Char.isDigit
        · rfl
        · exact absurd (fun c hc => List.all_eq_true.mp hda c hc) ht3
      have htk : t.data.all isTokenChar = true := List.all_eq_true.mpr ht2
      obtain ⟨v, hv⟩ := Option.isSome_iff_exists.mp (hlk t (List.mem_cons_self _ _))
      cases hd : t.data with
      | nil => exact absurd hd ht1
      | cons d ds =>
        have hdtok : isTokenChar d = true := by
          apply ht2; rw [hd]; exact List.mem_cons_self d ds
        have hdne : d ≠ '{' := (isTokenChar_ne_braces hdtok).1
        have hfield := pyFormatGo_field conf (renderChunks rest) t.data []
          (fun c hc => ht2 c hc)
        have hdne2 : d ≠ '}' := (isTokenChar_ne_braces hdtok).2
        simp only [renderChunks, hd, List.cons_append, pyFormatGo]
        rw [if_pos trivial, if_neg hdne, if_neg hdne2]
        rw [hd, List.cons_append] at hfield
        simp only [pyFormatGo] at hfield
        rw [if_neg hdne2] at hfield
        rw [hfield]
        have hfr : fieldResult conf ([] ++ d :: ds) = .ok v.data := by
          rw [List.nil_append, ← hd]
          simp only [fieldResult]
          rw [if_neg (by rw [hd]; simp), if_neg (by rw [hdig]; simp), if_pos htk]
          have hmk : String.mk t.data = t := rfl
          rw [hmk, hv]
        rw [hfr, ihr]
        simp only [renderSub, hv]
        rfl

lemma findTokensGo_none_nil (l : List Char) (h : ∀ c ∈ l, c ≠ '{') :
    findTokensGo none l = [] := by
  induction l with
  | nil => rfl
  | cons c r ih =>
    have hc := h c (List.mem_cons_self c r)
    simp only [findTokensGo]
    rw [if_neg hc]
    exact ih (fun d hd => h d (List.mem_cons_of_mem c hd))

lemma renderSub_no_brace (conf : Settings) :
    ∀ ts : List Chunk, (∀ ch ∈ ts, wfChunk ch) →
      (∀ t, Chunk.field t ∈ ts → ∃ v, List.lookup t conf = some v ∧
        ∀ c ∈ v.data, c ≠ '{' ∧ c ≠ '}') →
      ∀ c ∈ renderSub conf ts, c ≠ '{' ∧ c ≠ '}' := by
  intro ts
  induction ts with
  | nil => intro _ _ c hc; cases hc
  | cons ch rest ih =>
    intro hwf hval c hc
    have ihr := ih (fun x hx => hwf x (List.mem_cons_of_mem ch hx))
      (fun t ht => hval t (List.mem_cons_of_mem ch ht))
    cases ch with
    | lit d =>
      rcases List.mem_cons.mp hc with rfl | hm
      · exact hwf (.lit c) (List.mem_cons_self _ _)
      · exact ihr c hm
    | field t =>
      obtain ⟨v, hv, hvb⟩ := hval t (List.mem_cons_self _ _)
      simp only [renderSub, hv, Option.getD_some] at hc
      rcases List.mem_append.mp hc with hm | hm
      · exact hvb c hm
      · exact ihr c hm

lemma renderSub_identity (conf : Settings) :
    ∀ ts : List Chunk, (∀ t, Chunk.field t ∈ ts → List.lookup t conf = some (braced t)) →
      renderSub conf ts = renderChunks ts := by
  intro ts
  induction ts with
  | nil => intro _; rfl
  | cons ch rest ih =>
    intro hval
    have ihr := ih (fun t ht => hval t (List.mem_cons_of_mem ch ht))
    cases ch with
    | lit d => simp [renderSub, renderChunks, ihr]
    | field t =>
      have hv := hval t (List.mem_cons_self _ _)
      have hb : (braced t).data = '{' :: (t.data ++ ['}']) := by
        simp [braced, obr, cbr]
      simp [renderSub, renderChunks, hv, hb, ihr]

/-- C6 (amended): on templates whose braces occur only as simple replacement
fields over nonempty, not-all-digit token words, with every token bound in
the settings: substitution succeeds; when additionally every substituted
value is brace-free, the result contains no brace and hence no
`INPUTS_REGEX` token pattern; and substituting the identity mapping (each
token `k` bound to the literal braced `k`) reproduces the template exactly.
On templates outside this fragment (escaped braces) or with brace-carrying
values the pattern-freedom fails, as the counterexample shows. -/
theorem c6_substitution_clean_fragment (ts : List Chunk) (conf : Settings)
    (hwf : ∀ ch ∈ ts, wfChunk ch) :
    ((∀ t, Chunk.field t ∈ ts → ∃ v, List.lookup t conf = some v ∧
        ∀ c ∈ v.data, c ≠ '{' ∧ c ≠ '}') →
      ∃ out, sub_conf (String.mk (renderChunks ts)) conf = .ok out ∧
        findTokens out.data = [] ∧ ∀ c ∈ out.data, c ≠ '{' ∧ c ≠ '}') ∧
    ((∀ t, Chunk.field t ∈ ts → List.lookup t conf = some (braced t)) →
      sub_conf (String.mk (renderChunks ts)) conf = .ok (String.mk (renderChunks ts))) := by
  constructor
  · intro hval
    have hlk : ∀ t, Chunk.field t ∈ ts → (List.lookup t conf).isSome = true := by
      intro t ht
      obtain ⟨v, hv, _⟩ := hval t ht
      rw [hv]; rfl
    refine ⟨String.mk (renderSub conf ts), ?_, ?_, ?_⟩
    · show (pyFormatGo conf none (String.mk (renderChunks ts)).data).map String.mk = _
      rw [show (String.mk (renderChunks ts)).data = renderChunks ts from rfl,
        pyFormatGo_renderChunks conf ts hwf hlk]
      rfl
    · exact findTokensGo_none_nil _
        (fun c hc => (renderSub_no_brace conf ts hwf hval c hc).1)
    · exact renderSub_no_brace conf ts hwf hval
  · intro hval
    have hlk : ∀ t, Chunk.field t ∈ ts → (List.lookup t conf).isSome = true := by
      intro t ht; rw [hval t ht]; rfl
    show (pyFormatGo conf none (String.mk (renderChunks ts)).data).map String.mk = _
    rw [show (String.mk (renderChunks ts)).data = renderChunks ts from rfl,
      pyFormatGo_renderChunks conf ts hwf hlk, renderSub_identity conf ts hval]
    rfl

/-- C1 witness. -/
theorem c1_substitution_error_sites_witness :
    task_cmd sysNull (.str (braced "x")) [] "" =
      { success := false, output := "", finalCwd := "/",
        trace := [Ev.debugMsg ("Executing command: " ++ braced "x" ++ "..."),
                  Ev.errorMsg ("Error executing command: " ++ braced "x")] } ∧
    task_web_request httpOk (braced "x") [] [] [] USER_AGENT =
      { success := false, status_code := 0, body := "", attempts := [],
        trace := [Ev.errorMsg ("Error making web request to URL: " ++ braced "x")] } ∧
    (task_notes (some (.str (braced "x"))) []).2 = .error (.keyError "x") ∧
    (execute_checks sysNull [("a.yaml", ⟨none, none,
      some [("type", .str "notes"), ("notes", .str (braced "x"))]⟩)] []).2 =
      .error (.keyError "x") := by
  have h := c1_substitution_error_sites sysNull httpOk [] (braced "x")
    (.keyError "x") (by decide)
  exact ⟨h.1, h.2.1, h.2.2.1, h.2.2.2 "a.yaml" []⟩

/-- C4 witness. -/
theorem c4_unrecognized_kind_reported_witness :
    Ev.errorMsg ("Error executing task of type: " ++
        showTaskType ((dget [("type", StrOrList.str "bogus")] "task_type") <|>
          (dget [("type", StrOrList.str "bogus")] "type"))) ∈
      (execute_one sysNull "f.yaml" ⟨none, none, some [("type", .str "bogus")]⟩ []).1 ∧
    invocationsOf
      (execute_one sysNull "f.yaml" ⟨none, none, some [("type", .str "bogus")]⟩ []).1 = [] ∧
    (execute_one sysNull "f.yaml" ⟨none, none, some [("type", .str "bogus")]⟩ []).2 =
      .ok sysNull ∧
    execute_checks sysNull [("f.yaml", ⟨none, none, some [("type", .str "bogus")]⟩)] [] =
      ((execute_one sysNull "f.yaml" ⟨none, none, some [("type", .str "bogus")]⟩ []).1 ++
        (execute_checks sysNull [] []).1,
       (execute_checks sysNull [] []).2) := by
  exact c4_unrecognized_kind_reported sysNull [] "f.yaml" none none
    [("type", .str "bogus")] [] [] (by decide) (by decide) (by decide) (by decide)

/-- C5 witness. -/
theorem c5_failed_parse_excludes_conf_keeps_tokens_witness :
    (parse_checks_files [badFile] (fun _ => true)).1 =
      (([badFile].filter (fun f => (fun _ => true) f.path && f.yamlOk)).map
        (fun f => (f.path, f.parsed))) ∧
    "tok" ∈ (parse_checks_files [badFile] (fun _ => true)).2.1 ∧
    Ev.errorMsg ("Error parsing file: " ++ badFile.path) ∈
      (parse_checks_files [badFile] (fun _ => true)).2.2 := by
  have h := c5_failed_parse_excludes_conf_keeps_tokens [badFile] (fun _ => true)
  refine ⟨h.1, ?_, ?_⟩
  · exact h.2.1 badFile (by decide) rfl "tok" (by decide)
  · exact h.2.2 badFile (by decide) rfl rfl

/-- C6 witness. -/
theorem c6_substitution_clean_fragment_witness :
    (∃ out, sub_conf (String.mk (renderChunks [Chunk.field "k", Chunk.lit ' '])) [("k", "v")] =
        .ok out ∧ findTokens out.data = [] ∧ ∀ c ∈ out.data, c ≠ '{' ∧ c ≠ '}') ∧
    sub_conf (String.mk (renderChunks [Chunk.field "k", Chunk.lit ' '])) [("k", braced "k")] =
      .ok (String.mk (renderChunks [Chunk.field "k", Chunk.lit ' '])) := by
  have hwf : ∀ ch ∈ [Chunk.field "k", Chunk.lit ' '], wfChunk ch := by
    intro ch hch
    rcases List.mem_cons.mp hch with rfl | hm
    · refine ⟨by decide, by decide, by decide⟩
    · rcases List.mem_cons.mp hm with rfl | hnil
      · exact ⟨by decide, by decide⟩
      · cases hnil
  constructor
  · refine (c6_substitution_clean_fragment [Chunk.field "k", Chunk.lit ' '] [("k", "v")] hwf).1 ?_
    intro t ht
    rcases List.mem_cons.mp ht with heq | hm
    · injection heq with h0
      subst h0
      exact ⟨"v", rfl, by decide⟩
    · rcases List.mem_cons.mp hm with heq2 | hnil
      · cases heq2
      · cases hnil
  · refine (c6_substitution_clean_fragment [Chunk.field "k", Chunk.lit ' ']
      [("k", braced "k")] hwf).2 ?_
    intro t ht
    rcases List.mem_cons.mp ht with heq | hm
    · injection heq with h0
      subst h0
      rfl
    · rcases List.mem_cons.mp hm with heq2 | hnil
      · cases heq2
      · cases hnil

/-- C7 witness. -/
theorem c7_workdir_restored_witness :
    (task_cmd sysEcho (.str "c") [] "/nope").finalCwd = sysEcho.cwd ∧
    task_cmd sysEcho (.str "c") [] "/nope" =
      { task_cmd sysEcho (.str "c") [] "" with
        trace := Ev.errorMsg ("Cmd directory: " ++ "/nope" ++ " does not exist") ::
          (task_cmd sysEcho (.str "c") [] "").trace } :=
  ⟨(c7_workdir_restored sysEcho (.str "c") [] "/nope").1,
   (c7_workdir_restored sysEcho (.str "c") [] "/nope").2 (by decide) (by decide) (by decide)⟩

/-- C8 witness. -/
theorem c8_notes_once_after_task_witness :
    task_notes (some (.str "note")) [] = task_notes (some (.list ["note"])) [] ∧
    task_notes none ([] : Settings) = ([], .ok []) ∧
    (∃ mainEvs sys2, (∀ w, Ev.warnMsg w ∉ mainEvs) ∧
      execute_one sysNull "f.yaml" ⟨none, none, some [("type", StrOrList.str "notes")]⟩ [] =
        (match task_notes ((dget [("type", StrOrList.str "notes")] "notes") <|>
            (dget [("type", StrOrList.str "notes")] "note")) [] with
         | (nm, .error e) => (mainEvs ++ nm, .error e)
         | (nm, .ok _) => (mainEvs ++ nm ++ [Ev.plain SEPERATOR], .ok sys2))) := by
  have h := c8_notes_once_after_task [] "note" (by decide)
  exact ⟨h.1, h.2.1,
    h.2.2 sysNull "f.yaml" none none [("type", StrOrList.str "notes")] [] (by decide)⟩

/-- C9 witness. -/
theorem c9_cmd_success_ignores_exit_code_witness :
    task_cmd sysExit7 (.str "c") [] "" =
      { success := true, output := pyStrip "out", finalCwd := sysExit7.cwd,
        trace := [Ev.debugMsg ("Executing command: " ++ "c" ++ "..."),
                  Ev.shellInv sysExit7.cwd "c"] } :=
  c9_cmd_success_ignores_exit_code sysExit7 [] "c" "c" "out" 7 (by decide) (by decide) rfl

end PyEngine
